import Mathlib

/-!
Shallow embedding of `src/myproject/apps/core/models.py` and
`src/myproject/apps/ideas/models.py`.

Conventions of the embedding:
* Python runtime errors are values of `Myproject.PyErr`; fallible code returns
  `Except PyErr α`.
* Django field declarations are embedded as descriptor records carrying the
  configuration the source passes (`blank`, `null`, the generic-key wiring);
  the surrounding framework machinery (ORM, template loader, URL resolver,
  `settings`) is not under `src/`, so the few facts needed from it are
  modelled from the spec and marked as such in doc comments.
* The Python parameter named after a field-name marker string is rendered
  here as `pfx` (with `pfxVerbose` for its verbose label), since Lean reserves
  that identifier.
-/

namespace Myproject

/-- Python runtime errors that the embedded code can raise. -/
inductive PyErr where
  | nameError
  | typeError
  | fieldError
  | notImplemented
  | stackOverflow
  deriving DecidableEq

/-- Truthiness of the optional field-name marker argument (`None` and the
empty string are falsy in Python, any other string is truthy);
`core/models.py` line 32 branches on it. -/
def pfxTruthy : Option String → Bool
  | none => false
  | some s => !(s == "")

/-- Lines 31-38 of `core/models.py`: the three dynamic field names
`<<p>>content_type`, `<<p>>object_id`, `<<p>>content_object`.  The three
local variables are assigned ONLY inside the `if prefix:` branch (lines
33-38), so when the marker argument is falsy the names are never bound and
the function returns `none` (reading them later raises `NameError`). -/
def factoryFieldNames ( pfx : Option String) : Option (String × String × String) :=
  match pfx with
  | none => none
  | some s =>
      if s == "" then none
      else some (s ++ "_content_type", s ++ "_object_id", s ++ "_content_object")

/-- Configuration of a Django model field as declared by the source:
whether blank values are allowed on forms and whether NULL is allowed in
the database column. -/
structure FieldCfg where
  blank : Bool
  null : Bool
  deriving DecidableEq

/-- Lines 51-56 of `core/models.py`: `optional = not is_required`;
`content_type = models.ForeignKey(ContentType, ..., blank=optional,
null=optional, ...)`. -/
def factory_content_type_field (is_required : Bool) : FieldCfg :=
  { blank := !is_required, null := !is_required }

/-- Lines 58-60 of `core/models.py`: `object_id = models.CharField(...,
blank=optional, null=False, ...)`.  Note `null` is the literal `False`,
independent of `is_required`. -/
def factory_object_id_field (is_required : Bool) : FieldCfg :=
  { blank := !is_required, null := false }

/-- The descriptor built at line 61 of `core/models.py`:
`GenericForeignKey(ct_field=content_type_field, fk_field=object_id_field)`:
it records the names of the two physical fields it reads. -/
structure GenericForeignKey where
  ct_field : String
  fk_field : String
  deriving DecidableEq

/-- Line 61 of `core/models.py`, applied to the two computed field names. -/
def content_object_descriptor (ct fk : String) : GenericForeignKey :=
  { ct_field := ct, fk_field := fk }

/-- Modelled from the spec: `GenericForeignKey` is framework code not under
`src/`; the spec states the resolved reference "is never itself persisted —
it is computed on read from the two physical fields".  So the descriptor is
not a database column. -/
def GenericForeignKey.is_persisted (_g : GenericForeignKey) : Bool := false

/-- The value a successful factory call would return: the abstract model
class with its relation name, the three dynamic field names and the two
physical field configurations.  (As shown below, no call ever produces
one.) -/
structure TheClass where
  related_name : Option String
  content_type_field : String
  object_id_field : String
  content_object_field : String
  content_type : FieldCfg
  object_id : FieldCfg
  content_object : GenericForeignKey
  deriving DecidableEq

/-- Dynamic semantics of `object_relation_base_factory` (lines 12-66 of
`core/models.py`) as the file is actually indented: lines 44-66 all sit
INSIDE the body of `class TheClass`, so they execute while the class body
runs, in order:

* lines 44-47: `if add_related_name: if not prefix: raise FieldError(...)`
  — first possible failure, a `FieldError`;
* lines 51-60 construct the two field descriptors (they succeed);
* line 61 reads the free variables holding the field names, which lines
  36-38 assigned only under `if prefix:` — with a falsy marker this raises
  `NameError`;
* line 62 `TheClass.add_to_class(...)` runs inside the body of `TheClass`
  itself, where the name `TheClass` is not yet bound — `NameError` on every
  remaining path.

So every call fails; no class is ever returned.  (On top of that, line 66
`return TheClass` also sits in the class body, which CPython rejects as a
`SyntaxError` when compiling the module; this model charitably gives the
def dynamic semantics anyway — execution never reaches line 66.)
Arguments follow the order and defaults of the source:
marker, its verbose label, `add_related_name`, the `model__in` restriction
list, `is_required`. -/
def object_relation_base_factory ( pfx : Option String)
    (_pfxVerbose : Option String) (add_related_name : Bool)
    (_limit_content_type_choices_to : Option (List String))
    (is_required : Bool) : Except PyErr TheClass :=
  let _optional := !is_required
  if add_related_name && !(pfxTruthy pfx) then
    Except.error PyErr.fieldError
  else
    match factoryFieldNames pfx with
    | none => Except.error PyErr.nameError
    | some _ => Except.error PyErr.nameError

/-- `ideas/models.py` line 9: `FavoriteObjectBase = generic_relation(is_required=True)`. -/
def FavoriteObjectBase : Except PyErr TheClass :=
  object_relation_base_factory none none false none true

/-- `ideas/models.py` lines 12-20: the `OwnerBase` fragment, marker
`"owner"`, verbose label `"Owner"`, `is_required=True`,
`add_related_name=True`, restriction `model__in ∈ ("user", "group")`. -/
def OwnerBase : Except PyErr TheClass :=
  object_relation_base_factory (some "owner") (some "Owner") true
    (some ["user", "group"]) true

/-- The four text attributes of `MetaTagsBase` (lines 74-78 of
`core/models.py`), as the state of one instance. -/
structure MetaTagsBase where
  meta_keywords : String
  meta_description : String
  meta_author : String
  meta_copyright : String
  deriving DecidableEq

/-- HTML escaping of attribute content.  Modelled from the spec: the
template engine is framework code not under `src/`; the spec requires "the
content value escaped for safe embedding". -/
def escapeHtml (s : String) : String :=
  s.data.foldl (fun acc c =>
    acc ++ (if c = '&' then "&amp;"
            else if c = '<' then "&lt;"
            else if c = '>' then "&gt;"
            else if c = '"' then "&quot;"
            else if c = '\x27' then "&#x27;"
            else String.singleton c)) ""

/-- Modelled from the spec: the template `core/includes/meta_field.html`
rendered at line 86 of `core/models.py` is not under `src/`; the spec says
the renderer returns "a standard key/value presentational fragment with the
content value escaped for safe embedding". -/
def renderMetaField (name content : String) : String :=
  "<meta name=\"" ++ name ++ "\" content=\"" ++ escapeHtml content ++ "\" />"

/-- Lines 83-92 of `core/models.py`: `get_meta_field` returns the rendered
fragment when `if name and content:` holds (both strings truthy), else the
empty string. -/
def get_meta_field (name content : String) : String :=
  if name ≠ "" ∧ content ≠ "" then renderMetaField name content else ""

/-- Lines 94-95. -/
def get_meta_keywords (m : MetaTagsBase) : String :=
  get_meta_field "keywords" m.meta_keywords

/-- Lines 97-98. -/
def get_meta_description (m : MetaTagsBase) : String :=
  get_meta_field "description" m.meta_description

/-- Lines 100-101. -/
def get_meta_author (m : MetaTagsBase) : String :=
  get_meta_field "author" m.meta_author

/-- Lines 103-104. -/
def get_meta_copyright (m : MetaTagsBase) : String :=
  get_meta_field "copyright" m.meta_copyright

/-- Calling a Python string object: `str` is not callable, so this raises
`TypeError` whatever the string is. -/
def callString (_s : String) : Except PyErr String :=
  Except.error PyErr.typeError

/-- Lines 106-112 of `core/models.py` (the aggregate renderer, spelled
`get_meta_tafs` in the source): it joins, with newlines, the results of
`self.get_meta_keywords()`, `self.get_meta_description()`,
`self.meta_author()` — the RAW attribute, called — and
`self.get_meta_copyright()`.  The tuple elements are evaluated left to
right, so the call of the string attribute at line 110 raises before the
join happens. -/
def get_meta_tafs (m : MetaTagsBase) : Except PyErr String := do
  let k := get_meta_keywords m
  let d := get_meta_description m
  let a ← callString m.meta_author
  let c := get_meta_copyright m
  pure (String.intercalate "\n" [k, d, a, c])

/-- A `MetaTagsBase` instance with all four attributes blank. -/
def allBlankMeta : MetaTagsBase :=
  { meta_keywords := "", meta_description := "", meta_author := "", meta_copyright := "" }

/-- A `MetaTagsBase` instance with only `meta_keywords = "a,b"` set. -/
def keywordsOnlyMeta : MetaTagsBase :=
  { meta_keywords := "a,b", meta_description := "", meta_author := "", meta_copyright := "" }

/-- Lines 148-149 of `core/models.py`:
`urlunparse(("", "") + urlparse(url)[2:])` drops the scheme and network
location of a URL and keeps the rest.  Approximation of the standard
library URL parsing (framework/stdlib code, not under `src/`; no claim
evaluates this branch). -/
def stripSchemeHost (url : String) : String :=
  match url.splitOn "://" with
  | [] => url
  | [only] => only
  | _scheme :: rest =>
      let afterScheme := String.intercalate "://" rest
      match afterScheme.splitOn "/" with
      | [] => ""
      | [_host] => ""
      | _host :: parts => "/" ++ String.intercalate "/" parts

/-- State of an entity extending `UrlBase` (lines 115-154 of
`core/models.py`):
* `websiteUrl` models `settings.WEBSITE_URL` (the settings module is not
  under `src/`; the spec calls it the site base URL);
* `urlOverride = some u` means the concrete entity overrides `get_url`,
  returning `u`; `none` means the `get_url` of the mixin (which carries the
  `dont_recurse` marker, line 137) is in effect;
* `urlPathOverride = some p` likewise for `get_url_path` (mixin marker at
  line 151); `Idea.get_url_path` (`ideas/models.py` lines 45-46) is such an
  override, without the marker. -/
structure UrlBase where
  websiteUrl : String
  urlOverride : Option String
  urlPathOverride : Option String
  deriving DecidableEq

mutual

/-- Lines 126-137 of `core/models.py`, with explicit call-depth fuel (a
call with no fuel left models a Python stack overflow).  The mixin body
first tests `hasattr(self.get_url_path, "dont_recurse")` — true exactly
when `get_url_path` is the one the mixin provides, i.e. not overridden — and raises
`NotImplementedError` in that case; otherwise it calls `get_url_path()` and
returns `settings.WEBSITE_URL + path`. -/
def get_url_fuel : Nat → UrlBase → Except PyErr String
  | 0, _ => Except.error PyErr.stackOverflow
  | fuel + 1, m =>
      match m.urlOverride with
      | some u => Except.ok u
      | none =>
          if (m.urlPathOverride).isNone then Except.error PyErr.notImplemented
          else
            match get_url_path_fuel fuel m with
            | Except.error e => Except.error e
            | Except.ok path => Except.ok (m.websiteUrl ++ path)

/-- Lines 139-151 of `core/models.py`, symmetric to `get_url_fuel`: the
mixin body raises `NotImplementedError` when `get_url` is not overridden,
else calls `get_url()` and strips scheme and host from the result. -/
def get_url_path_fuel : Nat → UrlBase → Except PyErr String
  | 0, _ => Except.error PyErr.stackOverflow
  | fuel + 1, m =>
      match m.urlPathOverride with
      | some p => Except.ok p
      | none =>
          if (m.urlOverride).isNone then Except.error PyErr.notImplemented
          else
            match get_url_fuel fuel m with
            | Except.error e => Except.error e
            | Except.ok url => Except.ok (stripSchemeHost url)

end

/-- Lines 153-154 of `core/models.py`: `get_absolute_url` returns
`self.get_url()`. -/
def get_absolute_url (fuel : Nat) (m : UrlBase) : Except PyErr String :=
  get_url_fuel fuel m

/-- Options of a Django `DateTimeField` as declared by the source:
lines 164-165 of `core/models.py`. -/
structure DateTimeFieldOpts where
  auto_now_add : Bool
  auto_now : Bool
  deriving DecidableEq

/-- Line 164: `created = models.DateTimeField(..., auto_now_add=True)`. -/
def created_opts : DateTimeFieldOpts := { auto_now_add := true, auto_now := false }

/-- Line 165: `modified = models.DateTimeField(..., auto_now=True)`. -/
def modified_opts : DateTimeFieldOpts := { auto_now_add := false, auto_now := true }

/-- Modelled from the spec: the persistence layer applying `auto_now` /
`auto_now_add` is framework code not under `src/`.  Per the Timestamped
contract of the spec ("created: set once at first persistence, immutable
thereafter; modified: updated on every persistence operation"), on each
save the stored value of a field becomes the current time when `auto_now`
is set, or when `auto_now_add` is set and this is the first
persistence of the record (`add`), and is otherwise left unchanged.  Time is abstracted
to `Nat`. -/
def pre_save_value (opts : DateTimeFieldOpts) (now : Nat) (add : Bool)
    (old : Option Nat) : Option Nat :=
  if opts.auto_now then some now
  else if opts.auto_now_add && add then some now
  else old

/-- The two timestamp columns of `CreationModificationDateBase`
(lines 157-168 of `core/models.py`) plus whether the record has been
persisted at least once. -/
structure CreationModificationDateBase where
  created : Option Nat
  modified : Option Nat
  persisted : Bool
  deriving DecidableEq

/-- One successful save of a record at time `now`: both timestamp fields go
through `pre_save_value` with their declared options; the first save is an
insert (`add`), later saves are updates. -/
def saveRecord (now : Nat) (r : CreationModificationDateBase) :
    CreationModificationDateBase :=
  { created := pre_save_value created_opts now (!r.persisted) r.created,
    modified := pre_save_value modified_opts now (!r.persisted) r.modified,
    persisted := true }

/-- `ideas/models.py` lines 34-46: `Idea(CreationModificationDateBase)`
with its two own columns. -/
structure Idea extends CreationModificationDateBase where
  title : String
  content : String
  deriving DecidableEq

/-- Saving an `Idea` saves its `CreationModificationDateBase` part. -/
def Idea.save (now : Nat) (i : Idea) : Idea :=
  { i with toCreationModificationDateBase :=
      saveRecord now i.toCreationModificationDateBase }

/-- A fresh, never-persisted `Idea`. -/
def newIdea : Idea :=
  { created := none, modified := none, persisted := false,
    title := "t", content := "c" }

/-! ## Theorems -/

/-- C1: the claim says every call to `object_relation_base_factory`,
including a call with no field-name marker, yields an abstract fragment
with the three `<<p>>content_type` / `<<p>>object_id` /
`<<p>>content_object` fields.  In fact the no-marker call made for
`FavoriteObjectBase` (`ideas/models.py` line 9) raises `NameError`: the
field-name variables are assigned only under `if prefix:` and line 61 reads
them; the docstring (lines 25-28) documents the claimed naming scheme, so
the mis-indentation is a code bug. -/
theorem C1_no_marker_factory_call_raises :
    FavoriteObjectBase = Except.error PyErr.nameError := rfl

/-- C2: the claim says the two fragments mixed into `Like` have six
pairwise-distinct field names.  In fact neither fragment is ever created:
both factory calls raise `NameError` (the unprefixed one at line 61, the
`"owner"` one at line 62), so `Like` cannot be built at all; only for the
`"owner"` call are the three names even computed (and they do follow the
`owner_` scheme), while the no-marker call computes none. -/
theorem C2_like_fragments_never_created :
    FavoriteObjectBase = Except.error PyErr.nameError ∧
    OwnerBase = Except.error PyErr.nameError ∧
    factoryFieldNames (some "owner") =
      some ("owner_content_type", "owner_object_id", "owner_content_object") ∧
    factoryFieldNames none = none := by
  refine ⟨rfl, rfl, by decide, rfl⟩

/-- C3: the claim says the aggregate renderer calls each of the four
per-field renderers and joins the fragments with newlines.  In fact line
110 calls the raw attribute `self.meta_author()` — a string, which is not
callable — so `get_meta_tafs` raises `TypeError` on every instance and
never produces the join. -/
theorem C3_aggregate_renderer_calls_raw_attribute (m : MetaTagsBase) :
    get_meta_tafs m = Except.error PyErr.typeError := rfl

/-- C4 counterexample: on the all-blank instance the aggregate renderer
does not return the empty string (it raises `TypeError`). -/
theorem C4_counterexample : get_meta_tafs allBlankMeta ≠ Except.ok "" :=
  fun h => Except.noConfusion h

/-- C4 (amended): on the all-blank instance every per-field renderer
returns the empty string — but the aggregate raises `TypeError` (line 110
calls the raw attribute), and even the newline join it attempts would be
`"\n\n\n"`, not the empty string; on the instance with only
`meta_keywords = "a,b"`, exactly one of the four per-field fragments is
non-empty and it contains `"a,b"`, while the aggregate again raises. -/
theorem C4_per_field_fragments :
    get_meta_keywords allBlankMeta = "" ∧
    get_meta_description allBlankMeta = "" ∧
    get_meta_author allBlankMeta = "" ∧
    get_meta_copyright allBlankMeta = "" ∧
    String.intercalate "\n"
      [get_meta_keywords allBlankMeta, get_meta_description allBlankMeta,
       get_meta_author allBlankMeta, get_meta_copyright allBlankMeta] = "\n\n\n" ∧
    get_meta_tafs allBlankMeta = Except.error PyErr.typeError ∧
    get_meta_keywords keywordsOnlyMeta ≠ "" ∧
    (∃ s t, get_meta_keywords keywordsOnlyMeta = s ++ "a,b" ++ t) ∧
    get_meta_description keywordsOnlyMeta = "" ∧
    get_meta_author keywordsOnlyMeta = "" ∧
    get_meta_copyright keywordsOnlyMeta = "" ∧
    get_meta_tafs keywordsOnlyMeta = Except.error PyErr.typeError := by
  refine ⟨rfl, rfl, rfl, rfl, by decide, rfl, by decide,
    ⟨"<meta name=\"keywords\" content=\"", "\" />", by decide⟩, rfl, rfl, rfl, rfl⟩

/-- C5: an entity overriding neither `get_url` nor `get_url_path`
terminates with `NotImplementedError` on both `get_absolute_url()` and
`get_url_path()`: for EVERY call-depth budget of at least one frame the
result is the not-implemented error — in particular it is independent of
the budget, so the methods neither recurse unboundedly nor overflow the
stack. -/
theorem C5_no_override_raises_not_implemented (base : String) (fuel : Nat)
    (h : 1 ≤ fuel) :
    get_absolute_url fuel
        { websiteUrl := base, urlOverride := none, urlPathOverride := none } =
      Except.error PyErr.notImplemented ∧
    get_url_path_fuel fuel
        { websiteUrl := base, urlOverride := none, urlPathOverride := none } =
      Except.error PyErr.notImplemented := by
  obtain ⟨f, rfl⟩ : ∃ f, fuel = f + 1 := ⟨fuel - 1, by omega⟩
  constructor
  · simp [get_absolute_url, get_url_fuel]
  · simp [get_url_path_fuel]

/-- Witness for C5 at one frame of budget and a concrete base URL. -/
theorem C5_witness :
    1 ≤ 1 ∧
    (get_absolute_url 1
        { websiteUrl := "http://example.com", urlOverride := none,
          urlPathOverride := none } =
      Except.error PyErr.notImplemented ∧
    get_url_path_fuel 1
        { websiteUrl := "http://example.com", urlOverride := none,
          urlPathOverride := none } =
      Except.error PyErr.notImplemented) :=
  ⟨by decide, C5_no_override_raises_not_implemented "http://example.com" 1 (by decide)⟩

/-- C6: an entity overriding only `get_url_path` (as `Idea` does) gets
`get_absolute_url()` equal to the site base URL concatenated with the path
the override returns, for every sufficient call-depth budget. -/
theorem C6_absolute_url_is_base_plus_path (base p : String) (fuel : Nat)
    (h : 2 ≤ fuel) :
    get_absolute_url fuel
        { websiteUrl := base, urlOverride := none, urlPathOverride := some p } =
      Except.ok (base ++ p) := by
  obtain ⟨f, rfl⟩ : ∃ f, fuel = f + 2 := ⟨fuel - 2, by omega⟩
  simp [get_absolute_url, get_url_fuel, get_url_path_fuel]

/-- Witness for C6 at the path `"/ideas/1/"` named by the claim. -/
theorem C6_witness :
    2 ≤ 2 ∧
    get_absolute_url 2
        { websiteUrl := "http://example.com", urlOverride := none,
          urlPathOverride := some "/ideas/1/" } =
      Except.ok ("http://example.com" ++ "/ideas/1/") :=
  ⟨by decide, C6_absolute_url_is_base_plus_path "http://example.com" "/ideas/1/" 2 (by decide)⟩

/-- C7: every factory call with `add_related_name = True` and a falsy
field-name marker fails with the `FieldError` raised at line 46 of
`core/models.py` — the first statement of the class body to fail — for any
values of the other arguments. -/
theorem C7_related_name_without_marker_fails ( pfx pv : Option String)
    (lim : Option (List String)) (req : Bool) (h : pfxTruthy pfx = false) :
    object_relation_base_factory pfx pv true lim req =
      Except.error PyErr.fieldError := by
  simp [object_relation_base_factory, h]

/-- Witness for C7: the absent-marker call with `add_related_name` set. -/
theorem C7_witness :
    pfxTruthy none = false ∧
    object_relation_base_factory none none true none false =
      Except.error PyErr.fieldError :=
  ⟨rfl, C7_related_name_without_marker_fails none none none false rfl⟩

/-- C8 counterexample: the claim says the null-allowance of BOTH physical
fields is the negation of `is_required`; for `is_required = False` the
object-identifier field still has `null = False` (line 58 passes the
literal `False`). -/
theorem C8_counterexample :
    ¬ ((factory_object_id_field false).null = !false) := by decide

/-- C8 (amended): for every factory call, the blank-allowance of both
physical fields and the null-allowance of the type-discriminator field
equal the negation of `is_required`, but the object-identifier field is
declared `null=False` unconditionally; the resolved-reference descriptor
records exactly the two physical field names it reads and is never itself
persisted. -/
theorem C8_field_optionality (req : Bool) (ct fk : String) :
    (factory_content_type_field req).blank = !req ∧
    (factory_content_type_field req).null = !req ∧
    (factory_object_id_field req).blank = !req ∧
    (factory_object_id_field req).null = false ∧
    (content_object_descriptor ct fk).ct_field = ct ∧
    (content_object_descriptor ct fk).fk_field = fk ∧
    (content_object_descriptor ct fk).is_persisted = false :=
  ⟨rfl, rfl, rfl, rfl, rfl, rfl, rfl⟩

/-- C9: `created` is set at the first save and unchanged by every later
save of an already-persisted record; `modified` is set to the save time on
every save, the first included; saving a fresh `Idea` at `t1` and again at
`t2 > t1` leaves `created = t1` while `modified` moves from `t1` to `t2`,
strictly increasing. -/
theorem C9_timestamps_on_save :
    (∀ (now : Nat) (r : CreationModificationDateBase), r.persisted = true →
      (saveRecord now r).created = r.created) ∧
    (∀ (now : Nat) (r : CreationModificationDateBase),
      (saveRecord now r).modified = some now) ∧
    (∀ t1 t2 : Nat, t1 < t2 →
      ((newIdea.save t1).save t2).created = some t1 ∧
      (newIdea.save t1).created = some t1 ∧
      (newIdea.save t1).modified = some t1 ∧
      ((newIdea.save t1).save t2).modified = some t2 ∧ t1 < t2) := by
  refine ⟨?_, ?_, ?_⟩
  · intro now r h
    simp [saveRecord, pre_save_value, created_opts, h]
  · intro now r
    simp [saveRecord, pre_save_value, modified_opts]
  · intro t1 t2 h
    exact ⟨rfl, rfl, rfl, rfl, h⟩

/-- Witness for C9: a persisted record saved at time 5 keeps its creation
time; the fresh `Idea` saved at 1 then 2. -/
theorem C9_witness :
    ((saveRecord 5 { created := some 1, modified := some 2, persisted := true }).created
        = some 1) ∧
    ((saveRecord 5 { created := some 1, modified := some 2, persisted := true }).modified
        = some 5) ∧
    (((newIdea.save 1).save 2).created = some 1 ∧
      (newIdea.save 1).created = some 1 ∧
      (newIdea.save 1).modified = some 1 ∧
      ((newIdea.save 1).save 2).modified = some 2 ∧ 1 < 2) :=
  ⟨C9_timestamps_on_save.1 5
      { created := some 1, modified := some 2, persisted := true } rfl,
   C9_timestamps_on_save.2.1 5
      { created := some 1, modified := some 2, persisted := true },
   C9_timestamps_on_save.2.2 1 2 (by decide)⟩

/-- C10: `get_meta_field` can return a non-empty fragment only when both
the name and the content are non-blank; equivalently (and as proved here),
whenever the name is blank — even with non-blank content — or the content
is blank, it returns the empty string (the `if name and content:` guard at
line 85). -/
theorem C10_meta_field_blank_guard (name content : String)
    (h : name = "" ∨ content = "") : get_meta_field name content = "" := by
  rcases h with h | h <;> simp [get_meta_field, h]

/-- Witness for C10: blank name with non-blank content renders nothing. -/
theorem C10_witness :
    ("" = "" ∨ "some content" = "") ∧ get_meta_field "" "some content" = "" :=
  ⟨Or.inl rfl, C10_meta_field_blank_guard "" "some content" (Or.inl rfl)⟩

end Myproject
